import Mathlib

/-!
Verification of the dnext-support-chatbot core pipeline against its
natural-language specification.

The Python sources are shallowly embedded as executable Lean functions:

* `src/src/chunker.py` — separator-based document chunking.  The regex
  `\n\s*\*{4,}\s*\n` (with the greedy/backtracking semantics Python uses for this
  particular pattern) is embedded as the deterministic matcher `matchSep`,
  and `re.split` / `re.findall` as the single left-to-right scan `scanFuel`
  (both Python functions walk the text with the same leftmost-match loop,
  so one scan yields the split parts together with the match count).
* `src/app/session.py`, `src/app/session_manager.py` — in-memory sessions.
* `src/src/llm_handler.py` — conversation classification.
* `src/app/rag_engine.py` — context formatting of retrieval results.
* `src/app/message_handler.py` — the streaming orchestrator
  `MessageHandler.process_stream` with its two scenario handlers.

External collaborators (auth service, OpenAI/Groq clients, vector store,
database, filesystem) are modeled as oracle fields of an `Env` record; a
call that may raise an exception is modeled with `Except String`.
Whitespace is modeled as the ASCII whitespace characters recognized by
the Python regex class `\s` and by `str.strip`.
-/

/-! ## Chunker (`src/src/chunker.py`) -/

/-- ASCII whitespace, as matched by the Python regex class `\s` and stripped by `str.strip`. -/
def isWs (c : Char) : Bool :=
  c = ' ' || c = '\t' || c = '\n' || c = '\r' || c = '\x0b' || c = '\x0c'

/-- Python `str.strip()` on a character list: drop whitespace from both ends. -/
def pyStrip (l : List Char) : List Char :=
  ((l.dropWhile isWs).reverse.dropWhile isWs).reverse

/-- Python `str.strip()` on a `String`. -/
def pyStripStr (s : String) : String :=
  ⟨pyStrip s.data⟩

/-- After the asterisk run, the regex tail `\s*\n` greedily consumes the
leading whitespace run up to (and including) the last newline inside it.
Returns the suffix after that newline, or `none` when the leading
whitespace run contains no newline (the separator match fails). -/
def dropToLastNl : List Char → Option (List Char)
  | [] => none
  | c :: cs =>
    if isWs c then
      match dropToLastNl cs with
      | some r => some r
      | none => if c = '\n' then some cs else none
    else none

/-- Match the separator regex `\n\s*\*{4,}\s*\n` at the head of the list.
For this pattern the backtracking search is deterministic: the leading
`\s*` must take the maximal whitespace run (an asterisk is not whitespace),
`\*{4,}` must take the maximal asterisk run (a non-asterisk follows), and
`\s*\n` takes the leading whitespace run up to its last newline.
Returns the remaining suffix after the match. -/
def matchSep : List Char → Option (List Char)
  | [] => none
  | c :: cs =>
    if c = '\n' then
      let r1 := cs.dropWhile isWs
      let k := (r1.takeWhile (fun d => d = '*')).length
      if 4 ≤ k then dropToLastNl (r1.drop k) else none
    else none

/-- One left-to-right scan of the text performing `re.split` and counting
matches (`re.findall` count) simultaneously: `cur` is the reversed
accumulator of the current part.  Fuel bounds the recursion; each step
consumes at least one character, so fuel = input length always suffices,
and the fuel-exhausted fallback coincides with the `[]` case then. -/
def scanFuel : Nat → List Char → List Char → List (List Char) × Nat
  | 0, cur, l => ([cur.reverse ++ l], 0)
  | fuel + 1, cur, l =>
    match matchSep l with
    | some rest =>
      let p := scanFuel fuel [] rest
      (cur.reverse :: p.1, p.2 + 1)
    | none =>
      match l with
      | [] => ([cur.reverse], 0)
      | c :: cs => scanFuel fuel (c :: cur) cs

/-- Embeds `Chunker.SEPARATOR_PATTERN.split(text)`. -/
def pySplitText (text : String) : List String :=
  (scanFuel text.data.length [] text.data).1.map (fun l => ⟨l⟩)

/-- Embeds `len(Chunker.SEPARATOR_PATTERN.findall(text))`. -/
def sepCount (text : String) : Nat :=
  (scanFuel text.data.length [] text.data).2

/-- Embeds `Chunker.chunk_by_separator`: split at separator matches, keep the
stripped parts whose strip is non-empty. -/
def chunk_by_separator (text : String) : List String :=
  if pyStripStr text = "" then []
  else
    let chunks := ((pySplitText text).filter (fun c => pyStripStr c ≠ "")).map pyStripStr
    if chunks.isEmpty then [] else chunks

/-- Embeds `Chunker.chunk_text`: separator-based chunking only (`chunk_size` and
`overlap` are ignored by the source). -/
def chunk_text (text : String) : List String :=
  if pyStripStr text = "" then []
  else
    let chunks := chunk_by_separator text
    if chunks.isEmpty then [] else chunks

/-- Result dictionary of `Chunker.validate_document_format`. -/
structure ValidationResult where
  valid : Bool
  separator_count : Nat
  expected_chunks : Nat
  message : String
deriving DecidableEq, Repr

/-- Embeds `Chunker.validate_document_format`. -/
def validate_document_format (text : String) : ValidationResult :=
  if pyStripStr text = "" then
    { valid := false, separator_count := 0, expected_chunks := 0
      message := "Empty document" }
  else
    let c := sepCount text
    if c = 0 then
      { valid := false, separator_count := 0, expected_chunks := 0
        message := "No separator patterns (****+) found in document" }
    else
      { valid := true, separator_count := c, expected_chunks := c + 1
        message := "Document valid: " ++ toString c ++ " separators, " ++
          toString (c + 1) ++ " expected chunks" }

/-! ## ConversationSession (`src/app/session.py`)

The `created_at` / `last_updated` wall-clock fields are omitted: they carry
no information observable by the claims. -/

/-- In-memory session state: ordered `(role, content)` transcript and title. -/
structure Session where
  messages : List (String × String)
  title : String
deriving DecidableEq, Repr

/-- A freshly constructed `ConversationSession` ("New Chat" sentinel title). -/
def freshSession : Session :=
  { messages := [], title := "New Chat" }

/-- Title truncation `content[:50] + "..." if len(content) > 50 else content`
(Python slices by code point, hence `List.take` on `data`). -/
def deriveTitle (content : String) : String :=
  if 50 < content.length then (⟨content.data.take 50⟩ : String) ++ "..." else content

/-- Embeds `ConversationSession.add_message`: append the message, then set the
title from the content when this is a user message, the title still holds
the "New Chat" sentinel, and the content strips to non-empty. -/
def add_message (s : Session) (role content : String) : Session :=
  let s1 : Session := { s with messages := s.messages ++ [(role, content)] }
  if role = "user" ∧ s1.title = "New Chat" ∧ pyStripStr content ≠ "" then
    { s1 with title := deriveTitle content }
  else s1

/-! ## SessionManager (`src/app/session_manager.py`) -/

/-- Python `str.upper()` (per-character, sufficient for the ASCII labels involved). -/
def pyUpper (s : String) : String :=
  ⟨s.data.map Char.toUpper⟩

/-- Embeds `LLMHandler.classify_conversation`: the raw chat-completion output is an
oracle (`Except.error` models a raised exception from the client).  The
source strips and uppercases the content, keeps it only if it is exactly
`CASUAL` or `ACTIONABLE`, and falls back to `ACTIONABLE` otherwise
(also on any exception). -/
def classify_conversation (raw : Except String String) : String :=
  match raw with
  | .error _ => "ACTIONABLE"
  | .ok content =>
    let c := pyUpper (pyStripStr content)
    if c = "CASUAL" ∨ c = "ACTIONABLE" then c else "ACTIONABLE"

/-! ## RAG engine (`src/app/rag_engine.py`) -/

/-- Metadata entries read by `format_context` via `metadata.get` of the
document and section keys; the source key named section is a Lean keyword,
hence `sectionTitle`. -/
structure Meta where
  document : String
  sectionTitle : String
deriving DecidableEq, Repr

/-- The query-result dictionary shape consumed by `format_context`: the
documents and metadatas fields, grouped per query. -/
structure Retrieval where
  documents : List (List String)
  metadatas : List (List Meta)
deriving DecidableEq, Repr

/-- Embeds `RAGEngine.format_context`: empty string when no documents were
retrieved, otherwise numbered source-headed passages joined by the fixed
delimiter. -/
def format_context (r : Retrieval) : String :=
  match r.documents with
  | [] => ""
  | d0 :: _ =>
    if d0 = [] then ""
    else
      let parts := (d0.zip (r.metadatas.headD [])).enum.map (fun p =>
        "[Source " ++ toString (p.1 + 1) ++ " - Document: " ++ p.2.2.document ++
          ", Section: " ++ p.2.2.sectionTitle ++ "]\n" ++ p.2.1)
      String.intercalate "\n\n---\n\n" parts

/-! ## Path helpers (`pathlib.Path(...).name` / `.suffix.lower()`) -/

/-- Pathlib `Path(p).name`: the final path component, i.e. the characters after
the last `'/'` (pathlib's trailing-slash normalization is not modeled;
every call site passes a plain file path). -/
def pathName (p : String) : String :=
  ⟨(p.data.reverse.takeWhile (fun c => c ≠ '/')).reverse⟩

/-- Index of the last `'.'` in a character list, if any. -/
def lastDotIdx (l : List Char) : Option Nat :=
  ((l.enum.filter (fun q => q.2 = '.')).getLast?).map (fun q => q.1)

/-- Pathlib `Path(p).suffix.lower()`: the final dot-extension of the last
component (empty when the name has no interior dot), lowercased as every
call site in `message_handler.py` does. -/
def pathSuffix (p : String) : String :=
  let name := (pathName p).data
  match lastDotIdx name with
  | some i =>
    if 0 < i ∧ i < name.length - 1 then ⟨(name.drop i).map Char.toLower⟩ else ""
  | none => ""

/-- Constant `SUPPORTED_IMAGE_EXTS` from `message_handler.py`. -/
def SUPPORTED_IMAGE_EXTS : List String :=
  [".jpg", ".jpeg", ".png", ".gif", ".webp", ".bmp"]

/-- Constant `NO_CONTEXT_REPLY` from `message_handler.py`. -/
def NO_CONTEXT_REPLY : String :=
  "I couldn\x27t find relevant information about this. " ++
    "For specific assistance, please contact our support team at support@dnext.io 📧"

/-! ## Message orchestrator (`src/app/message_handler.py`)

`MessageHandler.process_stream` is a Python generator with side effects on
the session and the database.  It is embedded as a pure function from an
oracle environment `Env` (the external collaborators) and the inputs of one
turn to the observable outcome of the turn: the list of yielded strings, the
resulting session, the records written, and the retrieval calls issued.
An uncaught exception inside a scenario handler is carried in `exc` and
turned into the final "❌ Error: ..." yield by the top-level
`try/except` of `process_stream`. -/

/-- Result dictionary of `VLMHandler.extract_image_info` (that method
catches its own exceptions and always returns a dictionary; on failure the
source stores `None` in `extracted_info`, which is never read). -/
structure ExtractResult where
  success : Bool
  extracted_info : String
  error : String
deriving DecidableEq, Repr

/-- Outcome of the PyMuPDF first-page rasterization of a `.pdf` attachment:
`importFail` models `ImportError` on `import fitz`, `rasterFail e` any other
exception from opening/rasterizing, `rasterOk` success. -/
inductive PdfOutcome where
  | importFail
  | rasterFail (e : String)
  | rasterOk
deriving DecidableEq, Repr

/-- One entry of the attachment metadata list built by `_save_attachments`
(`type` is a Lean keyword, hence `kind`). -/
structure AttachMeta where
  kind : String
  path : String
  original_name : String
deriving DecidableEq, Repr

/-- The fields of a persisted `Conversation` row that the claims observe
(`user_id`/`session_id` are passed through unchanged and `timestamp` /
`response_time_ms` are wall-clock values). -/
structure ConversationRec where
  message : String
  response : String
  conversation_type : String
  attachments : Option (List AttachMeta)
deriving DecidableEq, Repr

/-- Oracle environment: the behavior of every external collaborator during
one turn.  `Except.error` models a raised exception. -/
structure Env where
  /-- Oracle for `auth.verify_user_access(user_id)`. -/
  access : Bool
  /-- Reading a `.txt` attachment from disk, by path. -/
  txtRead : String → Except String String
  /-- Raw chat-completion content for `classify_conversation`. -/
  classifyRaw : Except String String
  /-- Oracle for `Config.TOP_K_RESULTS`, the default retrieval fan-out. -/
  defaultTopK : Nat
  /-- Oracle for `rag.retrieve(query, top_k)`. -/
  retrieve : String → Nat → Except String Retrieval
  /-- Oracle for `llm.generate_response_stream(context, query, history)`: the fragment
  list (that generator catches its own exceptions, yielding an error
  fragment instead of raising, so it is total). -/
  streamChunks : String → String → List (String × String) → List String
  /-- PyMuPDF rasterization outcome per `.pdf` path. -/
  pdf : String → PdfOutcome
  /-- Oracle for the `vlm.extract_image_info` outcome per attachment path (the prompt the
  source builds from the message is consumed only by the external model). -/
  extract : String → ExtractResult
  /-- Whether `self.vlm` is configured (non-`None`). -/
  vlmConfigured : Bool
  /-- Metadata list produced by `_save_attachments` (filesystem copies;
  files that fail to copy are skipped by the source, so this is any list).
  Note that `db.save_conversation` needs no oracle: the source wraps its
  whole body in `try/except Exception` and returns `None` on failure, so it
  never raises — and the orchestrator never actually reaches it, see
  `CONVERSATION_TYPE_ERROR`. -/
  saveMeta : List AttachMeta

/-- Message of the `TypeError` raised by `Conversation(...,
session_id=session.session_id, ...)` in `_handle_text` and
`_handle_files`: `models.Conversation` is a dataclass with no `session_id`
field, so the constructor call rejects the keyword argument.  The exact
wording is interpreter-version dependent (this is the CPython 3.10+ form);
the claims rely only on the failure being deterministic. -/
def CONVERSATION_TYPE_ERROR : String :=
  "Conversation.__init__() got an unexpected keyword argument \x27session_id\x27"

/-- Observable outcome of one turn.  `saved` lists the records actually
written by `db.save_conversation`; `attempted` lists the keyword-argument
values the orchestrator supplied to the `Conversation` constructor (they
are evaluated before the constructor call raises). -/
structure HandlerOut where
  yields : List String
  sess : Session
  saved : List ConversationRec
  attempted : List ConversationRec
  retrievals : List (String × Nat)
  exc : Option String
deriving DecidableEq, Repr

/-- Cumulative republication of stream fragments: `acc` is the
`full_response` accumulated so far; each fragment extends it and the
extended value is yielded (`full_response += chunk; yield full_response`). -/
def cumulAux (acc : String) : List String → List String
  | [] => []
  | c :: cs => (acc ++ c) :: cumulAux (acc ++ c) cs

/-- The yields of the streaming loop started from the empty response. -/
def cumul (chunks : List String) : List String :=
  cumulAux "" chunks

/-- The final `full_response` after the streaming loop. -/
def foldCat (chunks : List String) : String :=
  chunks.foldl (fun a c => a ++ c) ""

/-- Common tail of both scenario handlers: append the user-visible entry
and the final response to the session, then attempt to build the
`Conversation` record.  The constructor call
`Conversation(..., session_id=session.session_id, ...)` raises `TypeError`
unconditionally (`models.Conversation` has no `session_id` field), so the
exception escapes to the top-level catch-all after the session was already
mutated, `db.save_conversation` is never called, and no record is ever
written. -/
def finishTurn (s : Session) (ys : List String)
    (msgText full convType : String) (att : Option (List AttachMeta))
    (retrs : List (String × Nat)) : HandlerOut :=
  let s2 := add_message (add_message s "user" msgText) "assistant" full
  { yields := ys, sess := s2, saved := []
    attempted := [{ message := msgText, response := full, conversation_type := convType
                    attachments := att }]
    retrievals := retrs, exc := some CONVERSATION_TYPE_ERROR }

/-- Embeds `MessageHandler._handle_text` (scenario 1). -/
def handle_text (env : Env) (message : String) (s : Session) : HandlerOut :=
  let conversation_type := classify_conversation env.classifyRaw
  if conversation_type = "CASUAL" then
    let chunks := env.streamChunks "" message s.messages
    finishTurn s (cumul chunks) message (foldCat chunks) conversation_type none []
  else
    match env.retrieve message env.defaultTopK with
    | .error e =>
      { yields := [], sess := s, saved := [], attempted := []
        retrievals := [(message, env.defaultTopK)], exc := some e }
    | .ok results =>
      let context := format_context results
      if context = "" then
        finishTurn s [NO_CONTEXT_REPLY] message NO_CONTEXT_REPLY conversation_type
          none [(message, env.defaultTopK)]
      else
        let chunks := env.streamChunks context message s.messages
        finishTurn s (cumul chunks) message (foldCat chunks) conversation_type
          none [(message, env.defaultTopK)]

/-- The description appended for the `idx`-th successfully analyzed file
(`idx` is `len(all_descriptions) + 1`, i.e. 1-based position). -/
def fileDesc (env : Env) (idx : Nat) (path : String) : String :=
  "[File " ++ toString idx ++ ": " ++ pathName path ++ "]\n" ++
    (env.extract path).extracted_info

/-- The extraction loop of `_handle_files`: walks the attachments in order
and either aborts with the first user-facing error string (unsupported
extension, PDF failure, or unsuccessful extraction) or returns every
per-file description. -/
def extractAll (env : Env) : Nat → List String → Except String (List String)
  | _, [] => .ok []
  | idx, f :: fs =>
    let ext := pathSuffix f
    let gate : Except String Unit :=
      if ext = ".pdf" then
        match env.pdf f with
        | .importFail => .error "❌ PDF support requires PyMuPDF: `pip install PyMuPDF`"
        | .rasterFail e => .error ("❌ Error processing PDF: " ++ e)
        | .rasterOk => .ok ()
      else if ext ∈ SUPPORTED_IMAGE_EXTS then .ok ()
      else
        .error ("❌ Unsupported file type: " ++ ext ++
          ". Supported: images (jpg, png, gif, webp) and PDF.")
    match gate with
    | .error y => .error y
    | .ok _ =>
      let r := env.extract f
      if r.success then
        match extractAll env (idx + 1) fs with
        | .error y => .error y
        | .ok rest => .ok (fileDesc env idx f :: rest)
      else .error ("❌ Error analyzing " ++ pathName f ++ ": " ++ r.error)

/-- Closed form of the description list produced by a fully successful
extraction loop. -/
def descList (env : Env) : Nat → List String → List String
  | _, [] => []
  | idx, f :: fs => fileDesc env idx f :: descList env (idx + 1) fs

/-- Embeds `MessageHandler._handle_files` (scenarios 2 and 3). -/
def handle_files (env : Env) (message : String) (files : List String)
    (s : Session) (hasText : Bool) : HandlerOut :=
  if ¬env.vlmConfigured then
    { yields := ["❌ Image analysis is not configured. Please ensure GROQ_API_KEY is set."]
      sess := s, saved := [], attempted := [], retrievals := [], exc := none }
  else
    match extractAll env 1 files with
    | .error y =>
      { yields := [y], sess := s, saved := [], attempted := [], retrievals := [], exc := none }
    | .ok descs =>
      let combined := String.intercalate "\n\n" descs
      let num_files := files.length
      let retrieval_query :=
        if ¬hasText then "Analyze this information and help me understand it: " ++ combined
        else message ++ "\n\nFile content(s):\n" ++ combined
      let user_display_msg :=
        if ¬hasText then "[" ++ toString num_files ++ " FILE(S)] (No text provided)"
        else "[" ++ toString num_files ++ " FILE(S) + TEXT] " ++ message
      match env.retrieve retrieval_query 5 with
      | .error e =>
        { yields := [], sess := s, saved := [], attempted := []
          retrievals := [(retrieval_query, 5)], exc := some e }
      | .ok results =>
        let context := format_context results
        let att := if env.saveMeta.isEmpty then none else some env.saveMeta
        if context = "" then
          finishTurn s [NO_CONTEXT_REPLY] user_display_msg NO_CONTEXT_REPLY
            "TECHNICAL" att [(retrieval_query, 5)]
        else
          let chunks := env.streamChunks context retrieval_query s.messages
          finishTurn s (cumul chunks) user_display_msg (foldCat chunks)
            "TECHNICAL" att [(retrieval_query, 5)]

/-- The `.txt`-absorption loop of `process_stream`: each `.txt` attachment
is read and merged into the message (setting `has_text`), other
attachments are kept in order; a read failure aborts with the user-facing
error string.  On the empty list it is the identity, matching the
`if has_images:` guard the source places around the loop. -/
def absorb (env : Env) : String → Bool → List String →
    Except String (String × Bool × List String)
  | message, hasText, [] => .ok (message, hasText, [])
  | message, hasText, f :: fs =>
    if pathSuffix f = ".txt" then
      match env.txtRead f with
      | .error e => .error ("❌ Error reading text file: " ++ e)
      | .ok content =>
        let newMsg :=
          if hasText then pyStripStr (message ++ "\n\n" ++ content) else content
        absorb env newMsg true fs
    else
      match absorb env message hasText fs with
      | .error y => .error y
      | .ok (m, h, rest) => .ok (m, h, f :: rest)

/-- Body of `process_stream` inside its `try`: access check, `.txt`
absorption, empty-input check, then dispatch to the scenario handlers. -/
def processCore (env : Env) (message0 : String) (files0 : List String)
    (s : Session) : HandlerOut :=
  if ¬env.access then
    { yields := ["❌ Your account has been suspended. Please contact support."]
      sess := s, saved := [], attempted := [], retrievals := [], exc := none }
  else
    let hasText0 : Bool := decide (pyStripStr message0 ≠ "")
    match absorb env message0 hasText0 files0 with
    | .error y =>
      { yields := [y], sess := s, saved := [], attempted := [], retrievals := [], exc := none }
    | .ok (message, hasText, files) =>
      if hasText = false ∧ files.isEmpty then
        { yields := ["Please provide a question or upload an image."]
          sess := s, saved := [], attempted := [], retrievals := [], exc := none }
      else if files.isEmpty then handle_text env message s
      else handle_files env message files s hasText

/-- Embeds `MessageHandler.process_stream`: the catch-all `except` converts an
uncaught exception into one final "❌ Error: ..." yield after whatever was
already yielded (earlier yields of a generator were already delivered). -/
def process_stream (env : Env) (message0 : String) (files0 : List String)
    (s : Session) : HandlerOut :=
  let h := processCore env message0 files0 s
  match h.exc with
  | some e => { h with yields := h.yields ++ ["❌ Error: " ++ e], exc := none }
  | none => h

/-! ## Chunker lemmas -/

theorem scanFuel_parts_length (fuel : Nat) : ∀ cur l,
    (scanFuel fuel cur l).1.length = (scanFuel fuel cur l).2 + 1 := by
  induction fuel with
  | zero => intro cur l; simp [scanFuel]
  | succ n ih =>
    intro cur l
    cases h : matchSep l with
    | some rest => simp [scanFuel, h, ih]
    | none =>
      cases l with
      | nil => simp [scanFuel, h]
      | cons c cs => simp [scanFuel, h, ih]

theorem matchSep_exists_star : ∀ {l rest : List Char}, matchSep l = some rest →
    ∃ c ∈ l, isWs c = false := by
  intro l rest h
  cases l with
  | nil => simp [matchSep] at h
  | cons c cs =>
    simp only [matchSep] at h
    by_cases hc : c = '\n'
    · rw [if_pos hc] at h
      by_cases hk : 4 ≤ ((cs.dropWhile isWs).takeWhile (fun d => d = '*')).length
      · cases hr : cs.dropWhile isWs with
        | nil => rw [hr] at hk; simp at hk
        | cons d ds =>
          have hd : d = '*' := by
            by_contra hpd
            rw [hr, List.takeWhile_cons_of_neg (by simpa using hpd)] at hk
            simp at hk
          refine ⟨d, ?_, ?_⟩
          · have h1 : d ∈ cs.dropWhile isWs := by rw [hr]; exact List.mem_cons_self _ _
            exact List.mem_cons_of_mem _ ((List.dropWhile_sublist (l := cs) isWs).subset h1)
          · rw [hd]; decide
      · rw [if_neg hk] at h; exact absurd h (by simp)
    · rw [if_neg hc] at h; exact absurd h (by simp)

theorem scanFuel_count_pos (fuel : Nat) : ∀ cur l,
    1 ≤ (scanFuel fuel cur l).2 → ∃ c ∈ l, isWs c = false := by
  induction fuel with
  | zero => intro cur l h; simp [scanFuel] at h
  | succ n ih =>
    intro cur l h
    cases hm : matchSep l with
    | some rest => exact matchSep_exists_star hm
    | none =>
      cases l with
      | nil => rw [scanFuel] at h; simp [hm] at h
      | cons c cs =>
        rw [scanFuel] at h; simp only [hm] at h
        obtain ⟨d, hd, hdw⟩ := ih (c :: cur) cs h
        exact ⟨d, List.mem_cons_of_mem _ hd, hdw⟩

theorem pyStrip_ne_nil {l : List Char} {c : Char} (hc : c ∈ l) (hws : isWs c = false) :
    pyStrip l ≠ [] := by
  intro h
  unfold pyStrip at h
  rw [List.reverse_eq_nil_iff, List.dropWhile_eq_nil_iff] at h
  have hc1 : c ∈ l.dropWhile isWs := by
    rw [← List.takeWhile_append_dropWhile (p := isWs) (l := l)] at hc
    rcases List.mem_append.mp hc with h1 | h2
    · have := List.mem_takeWhile_imp h1
      rw [hws] at this; exact absurd this (by simp)
    · exact h2
  have := h c (by simpa using hc1)
  rw [hws] at this; exact absurd this (by simp)

theorem head_not_ws_of_dropWhile_head? {m : List Char} {y : Char}
    (h : (m.dropWhile isWs).head? = some y) : isWs y = false := by
  have hne : m.dropWhile isWs ≠ [] := by intro hx; rw [hx] at h; simp at h
  have h3 := List.head_dropWhile_not isWs m hne
  have h4 : (m.dropWhile isWs).head hne = y := by
    rw [List.head?_eq_head hne] at h; exact Option.some.inj h
  rwa [h4] at h3

theorem pyStrip_reverse_eq (l : List Char) :
    (pyStrip l).reverse = (l.dropWhile isWs).reverse.dropWhile isWs := by
  unfold pyStrip; rw [List.reverse_reverse]

theorem pyStrip_last_not_ws {l : List Char} {y : Char} {ys : List Char}
    (h : (pyStrip l).reverse = y :: ys) : isWs y = false := by
  rw [pyStrip_reverse_eq] at h
  exact head_not_ws_of_dropWhile_head? (m := (l.dropWhile isWs).reverse) (by rw [h]; rfl)

theorem pyStrip_head_not_ws {l : List Char} {y : Char} {ys : List Char}
    (h : pyStrip l = y :: ys) : isWs y = false := by
  have h1 : (pyStrip l).head? = some y := by rw [h]; rfl
  unfold pyStrip at h1
  rw [List.head?_reverse] at h1
  obtain ⟨t, ht⟩ := List.dropWhile_suffix (l := (l.dropWhile isWs).reverse) isWs
  have hne : (l.dropWhile isWs).reverse.dropWhile isWs ≠ [] := by
    intro hx; rw [hx] at h1; simp at h1
  have h2 : (l.dropWhile isWs).reverse.getLast? = some y := by
    rw [← ht, List.getLast?_append_of_ne_nil _ hne]; exact h1
  rw [List.getLast?_reverse] at h2
  exact head_not_ws_of_dropWhile_head? (m := l) h2

theorem pyStrip_idem (l : List Char) : pyStrip (pyStrip l) = pyStrip l := by
  cases hm : pyStrip l with
  | nil => rfl
  | cons y ys =>
    have hy : isWs y = false := pyStrip_head_not_ws hm
    unfold pyStrip
    rw [List.dropWhile_cons_of_neg (by simp [hy])]
    cases hr : (y :: ys).reverse with
    | nil => simp at hr
    | cons z zs =>
      have hz : isWs z = false := by
        apply pyStrip_last_not_ws (l := l); rw [hm, hr]
      rw [List.dropWhile_cons_of_neg (by simp [hz]), ← hr, List.reverse_reverse]

theorem pyStripStr_idem (s : String) : pyStripStr (pyStripStr s) = pyStripStr s := by
  rw [String.ext_iff]
  exact pyStrip_idem s.data

theorem pyStripStr_ne_empty {s : String} {c : Char} (hc : c ∈ s.data)
    (hws : isWs c = false) : pyStripStr s ≠ "" := by
  intro h
  rw [String.ext_iff] at h
  exact pyStrip_ne_nil hc hws h

theorem sepCount_pos_strip {text : String} (h : 1 ≤ sepCount text) :
    pyStripStr text ≠ "" := by
  obtain ⟨c, hc, hws⟩ := scanFuel_count_pos text.data.length [] text.data h
  exact pyStripStr_ne_empty hc hws

theorem pySplitText_length (text : String) :
    (pySplitText text).length = sepCount text + 1 := by
  unfold pySplitText sepCount
  rw [List.length_map]
  exact scanFuel_parts_length _ _ _

theorem ite_isEmpty_self {α : Type} {l : List α} :
    (if l.isEmpty then ([] : List α) else l) = l := by
  cases l <;> simp

theorem chunk_by_separator_eq {text : String} (h : pyStripStr text ≠ "") :
    chunk_by_separator text =
      ((pySplitText text).filter (fun c => pyStripStr c ≠ "")).map pyStripStr := by
  unfold chunk_by_separator
  rw [if_neg h]
  exact ite_isEmpty_self

theorem chunk_text_eq {text : String} (h : pyStripStr text ≠ "") :
    chunk_text text =
      ((pySplitText text).filter (fun c => pyStripStr c ≠ "")).map pyStripStr := by
  unfold chunk_text
  rw [if_neg h, chunk_by_separator_eq h]
  exact ite_isEmpty_self

/-- C4 counterexample: the document `"\n****\nHello"` contains one separator
match, so `validate_document_format` predicts 2 chunks, but the segment
before the separator is empty and is discarded, so `chunk_text` returns a
single segment — not `n + 1 = 2` segments as the claim states. -/
theorem C4_counterexample :
    sepCount "\n****\nHello" = 1 ∧
    (validate_document_format "\n****\nHello").expected_chunks = 2 ∧
    chunk_text "\n****\nHello" = ["Hello"] ∧
    (chunk_text "\n****\nHello").length ≠
      (validate_document_format "\n****\nHello").expected_chunks := by
  refine ⟨by decide, by decide, by decide, by decide⟩

/-- C4 (amended): for every document with `n ≥ 1` separator matches,
`validate_document_format` reports `valid` with `expected_chunks = n + 1`,
and `chunk_text` returns **at most** `n + 1` segments, each non-empty and
whitespace-trimmed; the count equals `expected_chunks` exactly when every
raw split segment contains a non-whitespace character (empty segments are
discarded by the source). -/
theorem C4_amended (text : String) (h : 1 ≤ sepCount text) :
    (validate_document_format text).valid = true ∧
    (validate_document_format text).expected_chunks = sepCount text + 1 ∧
    (chunk_text text).length ≤ sepCount text + 1 ∧
    (∀ c ∈ chunk_text text, c ≠ "" ∧ pyStripStr c = c) ∧
    ((∀ p ∈ pySplitText text, pyStripStr p ≠ "") →
      (chunk_text text).length = (validate_document_format text).expected_chunks) := by
  have hs : pyStripStr text ≠ "" := sepCount_pos_strip h
  have hz : ¬ sepCount text = 0 := by omega
  have hv1 : (validate_document_format text).valid = true := by
    unfold validate_document_format; rw [if_neg hs, if_neg hz]
  have hv2 : (validate_document_format text).expected_chunks = sepCount text + 1 := by
    unfold validate_document_format; rw [if_neg hs, if_neg hz]
  have hct := chunk_text_eq hs
  refine ⟨hv1, hv2, ?_, ?_, ?_⟩
  · rw [hct, List.length_map, ← pySplitText_length]
    exact List.length_filter_le _ _
  · intro c hc
    rw [hct] at hc
    obtain ⟨p, hp, hpc⟩ := List.mem_map.mp hc
    have hpf := List.mem_filter.mp hp
    have hpne : pyStripStr p ≠ "" := by simpa using hpf.2
    exact ⟨hpc ▸ hpne, by rw [← hpc, pyStripStr_idem]⟩
  · intro hall
    rw [hct, List.length_map, hv2, ← pySplitText_length]
    rw [List.filter_eq_self.mpr (fun a ha => by simpa using hall a ha)]

/-- C4 witness: on `"A\n****\nB"` (one separator, both segments
non-whitespace) the amended claim applies and gives the exact count 2. -/
theorem C4_witness :
    (chunk_text "A\n****\nB").length = (validate_document_format "A\n****\nB").expected_chunks :=
  (C4_amended "A\n****\nB" (by decide)).2.2.2.2 (by decide)

/-- C3: for a non-empty document with zero separator markers,
`validate_document_format` indeed reports invalid, but `chunk_text` returns
the whole stripped document as a single chunk rather than the empty list
promised by both the claim and the docstrings of the source itself
("Empty list if no separators found"). -/
theorem C3_zero_markers_behavior :
    sepCount "hello world" = 0 ∧
    (validate_document_format "hello world").valid = false ∧
    chunk_text "hello world" = ["hello world"] ∧
    chunk_text "hello world" ≠ [] := by
  refine ⟨by decide, by decide, by decide, by decide⟩

/-! ## Session lemmas -/

theorem add_message_messages (s : Session) (role content : String) :
    (add_message s role content).messages = s.messages ++ [(role, content)] := by
  unfold add_message; dsimp only; split <;> rfl

theorem add_message_title_stable {s : Session} (h : s.title ≠ "New Chat")
    (role content : String) : (add_message s role content).title = s.title := by
  unfold add_message
  rw [if_neg]
  intro hc
  exact h hc.2.1

theorem fold_title_stable : ∀ (calls : List (String × String)) (s : Session),
    s.title ≠ "New Chat" →
    (calls.foldl (fun s rc => add_message s rc.1 rc.2) s).title = s.title := by
  intro calls
  induction calls with
  | nil => intro s h; rfl
  | cons rc rest ih =>
    intro s h
    rw [List.foldl_cons, ih _ (by rw [add_message_title_stable h]; exact h),
      add_message_title_stable h]

theorem deriveTitle_ne_sentinel {content : String} (h : content ≠ "New Chat") :
    deriveTitle content ≠ "New Chat" := by
  unfold deriveTitle
  split
  · intro heq
    rw [String.ext_iff] at heq
    have hlen := congrArg List.length heq
    simp only [String.data_append, List.length_append, List.length_take] at hlen
    have h50 : 50 < content.length := by assumption
    unfold String.length at h50
    simp [Nat.min_eq_left (Nat.le_of_lt h50)] at hlen
    omega
  · exact h

theorem fold_title_from_fresh : ∀ (calls : List (String × String)) (s : Session),
    s.title = "New Chat" →
    (calls.foldl (fun s rc => add_message s rc.1 rc.2) s).title =
      (match calls.find? (fun rc =>
          decide (rc.1 = "user" ∧ pyStripStr rc.2 ≠ "" ∧ rc.2 ≠ "New Chat")) with
        | none => "New Chat"
        | some rc => deriveTitle rc.2) := by
  intro calls
  induction calls with
  | nil => intro s hs; exact hs
  | cons rc rest ih =>
    intro s hs
    by_cases hp : rc.1 = "user" ∧ pyStripStr rc.2 ≠ "" ∧ rc.2 ≠ "New Chat"
    · rw [List.find?_cons_of_pos _ (by exact decide_eq_true hp)]
      have ht : (add_message s rc.1 rc.2).title = deriveTitle rc.2 := by
        unfold add_message
        rw [if_pos ⟨hp.1, hs, hp.2.1⟩]
      rw [List.foldl_cons,
        fold_title_stable rest _ (by rw [ht]; exact deriveTitle_ne_sentinel hp.2.2), ht]
    · rw [List.find?_cons_of_neg _ (by simp only [decide_eq_true_eq]; exact hp)]
      rw [List.foldl_cons]
      apply ih
      unfold add_message
      dsimp only
      split
      · next hcond =>
        have hrc2 : rc.2 = "New Chat" := by
          by_contra hne
          exact hp ⟨hcond.1, hcond.2.2, hne⟩
        show deriveTitle rc.2 = "New Chat"
        rw [hrc2]; decide
      · exact hs

/-- C6 counterexample: when the first non-whitespace user message is
exactly "New Chat", the derived title coincides with the sentinel, so the
next user message changes the title again — the title is not invariant
after being set once. -/
theorem C6_counterexample :
    pyStripStr "New Chat" ≠ "" ∧
    (add_message freshSession "user" "New Chat").title = "New Chat" ∧
    (add_message (add_message freshSession "user" "New Chat") "user" "hello").title = "hello" ∧
    (add_message (add_message freshSession "user" "New Chat") "user" "hello").title ≠
      (add_message freshSession "user" "New Chat").title := by
  refine ⟨by decide, by decide, by decide, by decide⟩

/-- C6 (amended): over any sequence of `add_message` calls on a fresh
session, the final title is derived (truncated to 50 characters plus an
ellipsis when longer) from the first user message whose content strips to
non-empty and differs from the sentinel "New Chat"; a first message equal
to "New Chat" re-produces the sentinel and leaves the title mutable.  Once
the title differs from "New Chat" no call ever changes it. -/
theorem C6_amended :
    (∀ calls : List (String × String),
      (calls.foldl (fun s rc => add_message s rc.1 rc.2) freshSession).title =
        (match calls.find? (fun rc =>
            decide (rc.1 = "user" ∧ pyStripStr rc.2 ≠ "" ∧ rc.2 ≠ "New Chat")) with
          | none => "New Chat"
          | some rc => deriveTitle rc.2)) ∧
    (∀ (s : Session) (role content : String), s.title ≠ "New Chat" →
      (add_message s role content).title = s.title) :=
  ⟨fun calls => fold_title_from_fresh calls freshSession rfl,
   fun _ _ _ h => add_message_title_stable h _ _⟩

/-- C6 witness: a concrete two-call sequence whose second message is
ignored for the title, and a concrete stability instance. -/
theorem C6_witness :
    ([("user", "hi there"), ("user", "bye")].foldl
        (fun s rc => add_message s rc.1 rc.2) freshSession).title = "hi there" ∧
    (add_message ⟨[], "my title"⟩ "user" "other").title = "my title" := by
  constructor
  · rw [C6_amended.1 [("user", "hi there"), ("user", "bye")]]; decide
  · exact C6_amended.2 ⟨[], "my title"⟩ "user" "other" (by decide)

/-! ## SessionManager lemmas -/

theorem cumulAux_getLast? (chunks : List String) : ∀ acc,
    (cumulAux acc chunks).getLast? =
      if chunks.isEmpty then none
      else some (chunks.foldl (fun a c => a ++ c) acc) := by
  induction chunks with
  | nil => intro acc; rfl
  | cons c cs ih =>
    intro acc
    cases cs with
    | nil => rfl
    | cons d ds =>
      show (((acc ++ c) :: cumulAux (acc ++ c) (d :: ds))).getLast? = _
      rw [show cumulAux (acc ++ c) (d :: ds) = ((acc ++ c) ++ d) :: cumulAux ((acc ++ c) ++ d) ds from rfl,
        List.getLast?_cons_cons,
        ← show cumulAux (acc ++ c) (d :: ds) = ((acc ++ c) ++ d) :: cumulAux ((acc ++ c) ++ d) ds from rfl,
        ih (acc ++ c)]
      rfl

theorem cumul_getLast?_some {chunks : List String} {y : String}
    (h : (cumul chunks).getLast? = some y) : y = foldCat chunks := by
  rw [cumul, cumulAux_getLast?] at h
  cases hc : chunks.isEmpty with
  | true => rw [hc] at h; simp at h
  | false => rw [hc] at h; simp at h; exact h.symm

/-! ## Orchestrator outcome lemmas -/

/-- Shape of a turn that reached the session-update/persistence tail: the
yields are the cumulative stream of some fragment list, the two transcript
entries were appended, the turn type supplied for the record came from the
fixed "TECHNICAL" constant or from the classifier — and the record
construction raised `TypeError`, so nothing was saved and the exception is
pending for the top-level catch-all. -/
def FinishedShape (env : Env) (s : Session) (r : HandlerOut) : Prop :=
  ∃ (m ct : String) (chunks : List String) (att : Option (List AttachMeta)),
    r.yields = cumul chunks ∧
    r.sess.messages = s.messages ++ [("user", m), ("assistant", foldCat chunks)] ∧
    (ct = "TECHNICAL" ∨ ct = classify_conversation env.classifyRaw) ∧
    r.saved = [] ∧
    r.attempted = [{ message := m, response := foldCat chunks, conversation_type := ct
                     attachments := att }] ∧
    r.exc = some CONVERSATION_TYPE_ERROR

theorem finishTurn_sess_messages (s : Session) (ys : List String)
    (m full ct : String) (att : Option (List AttachMeta)) (rs : List (String × Nat)) :
    (finishTurn s ys m full ct att rs).sess.messages =
      s.messages ++ [("user", m), ("assistant", full)] := by
  unfold finishTurn
  simp [add_message_messages]

theorem finishTurn_retrievals (s : Session) (ys : List String)
    (m full ct : String) (att : Option (List AttachMeta)) (rs : List (String × Nat)) :
    (finishTurn s ys m full ct att rs).retrievals = rs :=
  rfl

theorem finishTurn_shape (env : Env) (s : Session) (m ct : String)
    (chunks : List String) (att : Option (List AttachMeta)) (rs : List (String × Nat))
    (hct : ct = "TECHNICAL" ∨ ct = classify_conversation env.classifyRaw) :
    FinishedShape env s (finishTurn s (cumul chunks) m (foldCat chunks) ct att rs) :=
  ⟨m, ct, chunks, att, rfl, finishTurn_sess_messages _ _ _ _ _ _ _, hct, rfl, rfl, rfl⟩

theorem handle_text_shape (env : Env) (m : String) (s : Session) :
    ((handle_text env m s).sess = s ∧ (handle_text env m s).saved = [] ∧
      (handle_text env m s).attempted = [] ∧
      (handle_text env m s).yields = [] ∧ ∃ e, (handle_text env m s).exc = some e)
    ∨ FinishedShape env s (handle_text env m s) := by
  unfold handle_text
  dsimp only
  split
  · right
    exact finishTurn_shape env s m _ (env.streamChunks "" m s.messages) none [] (Or.inr rfl)
  · split
    · left; exact ⟨rfl, rfl, rfl, rfl, _, rfl⟩
    · split
      · right
        exact finishTurn_shape env s m _ [NO_CONTEXT_REPLY] none _ (Or.inr rfl)
      · right
        exact finishTurn_shape env s m _ (env.streamChunks _ m s.messages) none _ (Or.inr rfl)

theorem handle_files_shape (env : Env) (m : String) (files : List String)
    (s : Session) (hasText : Bool) :
    ((handle_files env m files s hasText).sess = s ∧
      (handle_files env m files s hasText).saved = [] ∧
      (handle_files env m files s hasText).attempted = [] ∧
      (handle_files env m files s hasText).exc = none ∧
      ∃ y, (handle_files env m files s hasText).yields = [y])
    ∨ ((handle_files env m files s hasText).sess = s ∧
      (handle_files env m files s hasText).saved = [] ∧
      (handle_files env m files s hasText).attempted = [] ∧
      (handle_files env m files s hasText).yields = [] ∧
      ∃ e, (handle_files env m files s hasText).exc = some e)
    ∨ FinishedShape env s (handle_files env m files s hasText) := by
  unfold handle_files
  dsimp only
  split
  · left; exact ⟨rfl, rfl, rfl, rfl, _, rfl⟩
  · split
    · left; exact ⟨rfl, rfl, rfl, rfl, _, rfl⟩
    · split
      · right; left; exact ⟨rfl, rfl, rfl, rfl, _, rfl⟩
      · split
        · right; right
          exact finishTurn_shape env s _ _ [NO_CONTEXT_REPLY] _ _ (Or.inl rfl)
        · right; right
          exact finishTurn_shape env s _ _ (env.streamChunks _ _ s.messages) _ _ (Or.inl rfl)

theorem processCore_shape (env : Env) (m0 : String) (files0 : List String) (s : Session) :
    ((processCore env m0 files0 s).sess = s ∧ (processCore env m0 files0 s).saved = [] ∧
      (processCore env m0 files0 s).attempted = [] ∧
      (processCore env m0 files0 s).exc = none ∧
      ∃ y, (processCore env m0 files0 s).yields = [y])
    ∨ ((processCore env m0 files0 s).sess = s ∧ (processCore env m0 files0 s).saved = [] ∧
      (processCore env m0 files0 s).attempted = [] ∧
      (processCore env m0 files0 s).yields = [] ∧
      ∃ e, (processCore env m0 files0 s).exc = some e)
    ∨ FinishedShape env s (processCore env m0 files0 s) := by
  unfold processCore
  dsimp only
  split
  · left; exact ⟨rfl, rfl, rfl, rfl, _, rfl⟩
  · split
    · left; exact ⟨rfl, rfl, rfl, rfl, _, rfl⟩
    · next m hT files heq =>
      split
      · left; exact ⟨rfl, rfl, rfl, rfl, _, rfl⟩
      · split
        · rcases handle_text_shape env m s with ⟨h1, h2, h3, h4, e, h5⟩ | h
          · right; left; exact ⟨h1, h2, h3, h4, e, h5⟩
          · right; right; exact h
        · exact handle_files_shape env m files s hT

theorem process_stream_shape (env : Env) (m0 : String) (files0 : List String) (s : Session) :
    ((process_stream env m0 files0 s).sess = s ∧
      (process_stream env m0 files0 s).saved = [] ∧
      (process_stream env m0 files0 s).attempted = [] ∧
      ∃ y, (process_stream env m0 files0 s).yields = [y])
    ∨ (∃ (m ct : String) (chunks : List String) (att : Option (List AttachMeta)),
        (process_stream env m0 files0 s).sess.messages =
          s.messages ++ [("user", m), ("assistant", foldCat chunks)] ∧
        (ct = "TECHNICAL" ∨ ct = classify_conversation env.classifyRaw) ∧
        (process_stream env m0 files0 s).saved = [] ∧
        (process_stream env m0 files0 s).attempted =
          [{ message := m, response := foldCat chunks, conversation_type := ct
             attachments := att }] ∧
        (process_stream env m0 files0 s).yields =
          cumul chunks ++ ["❌ Error: " ++ CONVERSATION_TYPE_ERROR]) := by
  unfold process_stream
  dsimp only
  rcases processCore_shape env m0 files0 s with
    ⟨h1, h2, h3, h4, y, h5⟩ | ⟨h1, h2, h3, h4, e, h5⟩ |
    ⟨m, ct, chunks, att, hy, hmsg, hct, hsv, hat, hexc⟩
  · rw [h4]; left; exact ⟨h1, h2, h3, y, h5⟩
  · rw [h5]; left
    refine ⟨h1, h2, h3, "❌ Error: " ++ e, ?_⟩
    dsimp only
    rw [h4]
    exact List.nil_append _
  · rw [hexc]
    right
    refine ⟨m, ct, chunks, att, hmsg, hct, hsv, hat, ?_⟩
    dsimp only
    rw [hy]

theorem classify_range (raw : Except String String) :
    classify_conversation raw = "CASUAL" ∨ classify_conversation raw = "ACTIONABLE" := by
  unfold classify_conversation
  cases raw with
  | error e => right; rfl
  | ok content =>
    dsimp only
    split
    · next h => exact h
    · right; rfl

/-! ## Concrete environments (witnesses and counterexamples) -/

/-- A baseline oracle environment: access granted, classifier says
"ACTIONABLE", retrieval finds nothing, streaming yields nothing,
persistence succeeds. -/
def envBase : Env :=
  { access := true, txtRead := fun _ => .error "missing", classifyRaw := .ok "ACTIONABLE"
    defaultTopK := 3, retrieve := fun _ _ => .ok ⟨[], []⟩
    streamChunks := fun _ _ _ => [], pdf := fun _ => .rasterOk
    extract := fun _ => ⟨true, "info", ""⟩, vlmConfigured := true
    saveMeta := [] }

/-- Retrieval returns one passage and the generator streams "Hel", "lo". -/
def envT : Env :=
  { envBase with retrieve := fun _ _ => .ok ⟨[["p"]], [[⟨"d", "s"⟩]]⟩
                 streamChunks := fun _ _ _ => ["Hel", "lo"] }

/-- As `envT` but the account is suspended. -/
def envDenied : Env :=
  { envT with access := false }

/-- Image extraction succeeds with a fixed description; retrieval misses. -/
def envC : Env :=
  { envBase with extract := fun _ => ⟨true, "screenshot shows error 500", ""⟩ }

/-- The classification call raises. -/
def envErrCls : Env :=
  { envT with classifyRaw := .error "boom" }

/-! ## Claims about the orchestrator -/

/-- C1 counterexample: an ordinary completed text turn ends in the
unexpected-exception error path — the record construction
`Conversation(..., session_id=...)` raises `TypeError`, so the last yield
is the generic error string and no record is written — yet the user and
assistant messages were already appended to the session, contradicting the
claim that an error-ending turn appends no message. -/
theorem C1_counterexample :
    (process_stream envT "hi there" [] freshSession).yields =
      ["Hel", "Hello", "❌ Error: " ++ CONVERSATION_TYPE_ERROR] ∧
    (process_stream envT "hi there" [] freshSession).saved = [] ∧
    (process_stream envT "hi there" [] freshSession).sess.messages =
      [("user", "hi there"), ("assistant", "Hello")] ∧
    (process_stream envT "hi there" [] freshSession).sess.messages ≠
      freshSession.messages := by
  refine ⟨by decide, by decide, by decide, by decide⟩

/-- C1 (amended): access denial and empty input yield their fixed messages
with no session mutation and no record; no turn ever writes a
`ConversationRecord` — the record construction raises `TypeError` before
`db.save_conversation` is reached — and every turn either leaves the
session untouched (all error paths reached before the session-update step,
including unsupported extensions and extraction failures) or appends
exactly the user/assistant pair and then ends with the deterministic
generic error yield produced by that `TypeError`. -/
theorem C1_amended (env : Env) (m0 : String) (files0 : List String) (s : Session) :
    (env.access = false →
      process_stream env m0 files0 s =
        { yields := ["❌ Your account has been suspended. Please contact support."]
          sess := s, saved := [], attempted := [], retrievals := [], exc := none }) ∧
    (env.access = true → files0 = [] → pyStripStr m0 = "" →
      process_stream env m0 files0 s =
        { yields := ["Please provide a question or upload an image."]
          sess := s, saved := [], attempted := [], retrievals := [], exc := none }) ∧
    (process_stream env m0 files0 s).saved = [] ∧
    ((process_stream env m0 files0 s).sess = s
     ∨ (∃ u a, (process_stream env m0 files0 s).sess.messages =
         s.messages ++ [("user", u), ("assistant", a)] ∧
         (process_stream env m0 files0 s).yields.getLast? =
           some ("❌ Error: " ++ CONVERSATION_TYPE_ERROR))) := by
  refine ⟨?_, ?_, ?_⟩
  · intro ha
    have hA : processCore env m0 files0 s =
        { yields := ["❌ Your account has been suspended. Please contact support."]
          sess := s, saved := [], attempted := [], retrievals := [], exc := none } := by
      unfold processCore
      rw [if_pos (by simp [ha])]
    unfold process_stream
    rw [hA]
  · intro ha hf hm
    have hA : processCore env m0 files0 s =
        { yields := ["Please provide a question or upload an image."]
          sess := s, saved := [], attempted := [], retrievals := [], exc := none } := by
      unfold processCore
      rw [if_neg (by simp [ha]), hf, hm]
      dsimp only
      rfl
    unfold process_stream
    rw [hA]
  · rcases process_stream_shape env m0 files0 s with
      ⟨h1, h2, _, _⟩ | ⟨m, ct, chunks, att, hmsg, _, hsv, _, hy⟩
    · exact ⟨h2, Or.inl h1⟩
    · refine ⟨hsv, Or.inr ⟨m, foldCat chunks, hmsg, ?_⟩⟩
      rw [hy, List.getLast?_concat]

/-- C1 witness: the amended claim applied to the suspended-account
environment. -/
theorem C1_witness :
    process_stream envDenied "hi" [] freshSession =
      { yields := ["❌ Your account has been suspended. Please contact support."]
        sess := freshSession, saved := [], attempted := [], retrievals := [], exc := none } :=
  (C1_amended envDenied "hi" [] freshSession).1 rfl

/-- C9 counterexample: at a concrete substantive text turn the
orchestrator supplies the conversation_type "ACTIONABLE" — outside the
claimed set {TECHNICAL, CASUAL, CHAT, IMAGE_ANALYSIS} — for the record it
attempts to build, and no record at all reaches `save_conversation`: the
construction raises `TypeError`, so nothing is persisted. -/
theorem C9_counterexample :
    (process_stream envT "How do I export data?" [] freshSession).saved = [] ∧
    (process_stream envT "How do I export data?" [] freshSession).attempted =
      [⟨"How do I export data?", "Hello", "ACTIONABLE", none⟩] ∧
    "ACTIONABLE" ∉ (["TECHNICAL", "CASUAL", "CHAT", "IMAGE_ANALYSIS"] : List String) := by
  refine ⟨by decide, by decide, by decide⟩

/-- C9 (amended): no `ConversationRecord` is ever written by the
orchestrator (the record construction raises `TypeError` before
`db.save_conversation` is called), and the conversation_type value the
orchestrator supplies for the attempted record is always in
{CASUAL, ACTIONABLE, TECHNICAL} — "TECHNICAL" for file-bearing turns and
the classifier label for text turns. -/
theorem C9_amended (env : Env) (m0 : String) (files0 : List String) (s : Session) :
    (process_stream env m0 files0 s).saved = [] ∧
    ∀ rec ∈ (process_stream env m0 files0 s).attempted,
      rec.conversation_type ∈ (["CASUAL", "ACTIONABLE", "TECHNICAL"] : List String) := by
  rcases process_stream_shape env m0 files0 s with
    ⟨_, hsv, hat, _⟩ | ⟨m, ct, chunks, att, _, hct, hsv, hat, _⟩
  · refine ⟨hsv, ?_⟩
    intro rec hrec
    rw [hat] at hrec
    cases hrec
  · refine ⟨hsv, ?_⟩
    intro rec hrec
    rw [hat, List.mem_singleton] at hrec
    rw [hrec]
    dsimp only
    rcases hct with h | h
    · rw [h]; simp
    · rcases classify_range env.classifyRaw with hc | hc <;> rw [h, hc] <;> simp

/-- C9 witness: the amended claim applied to a concrete attempted record. -/
theorem C9_witness :
    (⟨"How do I export data?", "Hello", "ACTIONABLE", none⟩ : ConversationRec).conversation_type ∈
      (["CASUAL", "ACTIONABLE", "TECHNICAL"] : List String) :=
  (C9_amended envT "How do I export data?" [] freshSession).2 _ (by decide)

/-- C10: `classify_conversation` always returns "CASUAL" or "ACTIONABLE";
an exception from the model call, or any label outside the two, defaults to
"ACTIONABLE", and a text turn whose classification call raised still issues
its retrieval query (it is never routed down the casual no-retrieval
path). -/
theorem C10_classifier_default (env : Env) (m : String) (s : Session) (e c : String) :
    (classify_conversation env.classifyRaw = "CASUAL" ∨
      classify_conversation env.classifyRaw = "ACTIONABLE") ∧
    classify_conversation (Except.error e) = "ACTIONABLE" ∧
    (pyUpper (pyStripStr c) ≠ "CASUAL" → pyUpper (pyStripStr c) ≠ "ACTIONABLE" →
      classify_conversation (Except.ok c) = "ACTIONABLE") ∧
    (env.classifyRaw = Except.error e →
      (handle_text env m s).retrievals = [(m, env.defaultTopK)]) := by
  refine ⟨classify_range env.classifyRaw, rfl, ?_, ?_⟩
  · intro h1 h2
    unfold classify_conversation
    dsimp only
    rw [if_neg]
    intro hc
    rcases hc with hc | hc
    · exact h1 hc
    · exact h2 hc
  · intro hraw
    unfold handle_text
    dsimp only
    rw [hraw]
    rw [if_neg (by simp [classify_conversation])]
    split
    · rfl
    · split
      · exact finishTurn_retrievals _ _ _ _ _ _ _
      · exact finishTurn_retrievals _ _ _ _ _ _ _

/-- C10 witness: with a raising classifier, the text turn still queries
retrieval with the user message. -/
theorem C10_witness :
    (handle_text envErrCls "q" freshSession).retrievals = [("q", 3)] :=
  (C10_classifier_default envErrCls "q" freshSession "boom" "x").2.2.2 rfl

/-- C5: a substantive (non-casual) text turn whose retrieval formats to an
empty context does respond with exactly `NO_CONTEXT_REPLY` and appends
both transcript messages, but no `ConversationRecord` is written: the
record construction raises `TypeError` (`models.Conversation` has no
`session_id` field), so `db.save_conversation` is never reached and the
turn ends with the generic error yield — evaluated here at the concrete
failing input. -/
theorem C5_retrieval_miss_trace :
    process_stream envBase "How do I export data?" [] freshSession =
      { yields := [NO_CONTEXT_REPLY, "❌ Error: " ++ CONVERSATION_TYPE_ERROR]
        sess := add_message (add_message freshSession "user" "How do I export data?")
          "assistant" NO_CONTEXT_REPLY
        saved := []
        attempted := [{ message := "How do I export data?", response := NO_CONTEXT_REPLY
                        conversation_type := "ACTIONABLE", attachments := none }]
        retrievals := [("How do I export data?", 3)], exc := none } := by
  decide

theorem extractAll_ok (env : Env) : ∀ (files : List String) (idx : Nat),
    (∀ f ∈ files, (pathSuffix f = ".pdf" ∧ env.pdf f = PdfOutcome.rasterOk) ∨
      pathSuffix f ∈ SUPPORTED_IMAGE_EXTS) →
    (∀ f ∈ files, (env.extract f).success = true) →
    extractAll env idx files = Except.ok (descList env idx files) := by
  intro files
  induction files with
  | nil => intro idx _ _; rfl
  | cons f fs ih =>
    intro idx hext hsucc
    have hf := hext f (List.mem_cons_self f fs)
    have hfs : (env.extract f).success = true := hsucc f (List.mem_cons_self f fs)
    have htail := ih (idx + 1) (fun g hg => hext g (List.mem_cons_of_mem f hg))
      (fun g hg => hsucc g (List.mem_cons_of_mem f hg))
    unfold extractAll
    dsimp only
    rcases hf with ⟨hpdf, hok⟩ | himg
    · rw [hpdf, if_pos rfl, hok]
      dsimp only
      rw [if_pos hfs, htail]
      rfl
    · have hne : pathSuffix f ≠ ".pdf" := by
        simp only [SUPPORTED_IMAGE_EXTS, List.mem_cons, List.not_mem_nil, or_false] at himg
        rcases himg with h | h | h | h | h | h <;> rw [h] <;> decide
      rw [if_neg hne, if_pos himg]
      dsimp only
      rw [if_pos hfs, htail]
      rfl

/-- The retrieval query assembled by `_handle_files`: the combined
per-file descriptions prefixed by the fixed instruction when no text
accompanied the attachments, or the original text followed by the
"File content(s):" header and the combined descriptions otherwise. -/
def fileQuery (env : Env) (m : String) (files : List String) (hasText : Bool) : String :=
  if ¬hasText then
    "Analyze this information and help me understand it: " ++
      String.intercalate "\n\n" (descList env 1 files)
  else m ++ "\n\nFile content(s):\n" ++ String.intercalate "\n\n" (descList env 1 files)

/-- The transcript user entry written by `_handle_files`. -/
def fileDisplay (files : List String) (m : String) (hasText : Bool) : String :=
  if ¬hasText then "[" ++ toString files.length ++ " FILE(S)] (No text provided)"
  else "[" ++ toString files.length ++ " FILE(S) + TEXT] " ++ m

/-- C8: for a file-bearing turn whose extractions all succeed, the
retrieval query is issued (with the widened fan-out 5) exactly as the
claim describes — instruction prefix plus combined "[File i: name]"
descriptions without text, original text plus "File content(s):" header
with text — and the transcript user entry is the corresponding
placeholder. -/
theorem C8_file_query (env : Env) (m : String) (files : List String) (s : Session)
    (hasText : Bool) (hvlm : env.vlmConfigured = true)
    (hext : ∀ f ∈ files, (pathSuffix f = ".pdf" ∧ env.pdf f = PdfOutcome.rasterOk) ∨
      pathSuffix f ∈ SUPPORTED_IMAGE_EXTS)
    (hsucc : ∀ f ∈ files, (env.extract f).success = true) :
    (handle_files env m files s hasText).retrievals =
      [(fileQuery env m files hasText, 5)] ∧
    (∀ R, env.retrieve (fileQuery env m files hasText) 5 = Except.ok R →
      ∃ resp, (handle_files env m files s hasText).sess.messages =
        s.messages ++ [("user", fileDisplay files m hasText), ("assistant", resp)]) := by
  unfold fileQuery fileDisplay
  unfold handle_files
  rw [if_neg (by simp [hvlm]), extractAll_ok env files 1 hext hsucc]
  dsimp only
  constructor
  · cases hr : env.retrieve (if ¬hasText then
        "Analyze this information and help me understand it: " ++
          String.intercalate "\n\n" (descList env 1 files)
      else m ++ "\n\nFile content(s):\n" ++ String.intercalate "\n\n" (descList env 1 files)) 5 with
    | error e => rfl
    | ok R =>
      dsimp only
      split
      · exact finishTurn_retrievals _ _ _ _ _ _ _
      · exact finishTurn_retrievals _ _ _ _ _ _ _
  · intro R hR
    rw [hR]
    dsimp only
    split
    · exact ⟨NO_CONTEXT_REPLY, finishTurn_sess_messages _ _ _ _ _ _ _⟩
    · exact ⟨_, finishTurn_sess_messages _ _ _ _ _ _ _⟩

/-- C8 witness: one image attachment, no accompanying text, extraction
succeeding with "screenshot shows error 500" (end-to-end scenario C). -/
theorem C8_witness :
    (handle_files envC "" ["shot.png"] freshSession false).retrievals =
      [("Analyze this information and help me understand it: [File 1: shot.png]\nscreenshot shows error 500", 5)] :=
  (C8_file_query envC "" ["shot.png"] freshSession false rfl
    (by intro f hf; right; rw [List.mem_singleton] at hf; rw [hf]; decide)
    (by intro f hf; rw [List.mem_singleton] at hf; rw [hf]; rfl)).1
